import Mathlib

/-!
Verification of the OCI scheduled-report automation scripts.

The repository has two entry points:
* `func.py` — an OCI Functions handler triggered by a storage event;
* `local-execution/send_latest_report.py` — a polling script (`ReportSender`)
  that locates the latest report, dedupes against a persisted ledger, and
  emails the report.

This development shallowly embeds the decision logic of both scripts:
the object locator, the sent-files ledger, the polling `run` sequence,
the base64 attachment encoding, and the event handler's payload parsing,
configuration check and error envelope.  External collaborators (object
storage, vault, SMTP, OCI authentication) are modelled as explicit
outcome parameters, exactly at the call sites where the scripts invoke
them.
-/

set_option maxRecDepth 100000

namespace Oci

/-- One entry of an object-storage listing: the fields the scripts read
from the `list_objects` response (`name`, `time_created`, `size`).
Creation timestamps are modelled as naturals ordered like the datetimes. -/
structure ObjInfo where
  name : String
  time_created : Nat
  size : Nat
  deriving DecidableEq

/-- Character-list test that `p` is an initial segment of `l`
(executable model of Python `str.startswith`). -/
def charsStart : List Char → List Char → Bool
  | [], _ => true
  | _ :: _, [] => false
  | a :: as, b :: bs => a == b && charsStart as bs

/-- Python `name.startswith(pfx)`. -/
def strStarts (s pfx : String) : Bool :=
  charsStart pfx.toList s.toList

/-- Python `name.endswith(post)`: the reversed suffix is an initial
segment of the reversed string. -/
def strEnds (s post : String) : Bool :=
  charsStart post.toList.reverse s.toList.reverse

/-- Models the server-side filter of `list_objects(prefix=pfx)`: the
response lists exactly the bucket objects whose name starts with `pfx`. -/
def list_objects (bucket : List ObjInfo) (pfx : String) : List ObjInfo :=
  bucket.filter (fun o => strStarts o.name pfx)

/-- Insert `o` in front of the first strictly older entry.  Together with
`sortByTimeDesc` this models Python's
`report_files.sort(key=lambda obj: obj.time_created, reverse=True)`:
the head of the result is a newest entry. -/
def insertByTime (o : ObjInfo) : List ObjInfo → List ObjInfo
  | [] => [o]
  | x :: xs =>
    if x.time_created < o.time_created then o :: x :: xs
    else x :: insertByTime o xs

/-- Sort a listing newest-first (model of the in-place `sort` with
`reverse=True` used by both scripts). -/
def sortByTimeDesc : List ObjInfo → List ObjInfo
  | [] => []
  | x :: xs => insertByTime x (sortByTimeDesc xs)

/-- The fixed report-name suffix both scripts filter on. -/
def csvGz : String := ".csv.gz"

/-- The fixed report-name start used by both scripts
(`WeeklyCostsScheduledReport_`). -/
def report_pfx : String := "WeeklyCostsScheduledReport_"

/-- Embedding of `func.py` `get_latest_report_filename`: list objects under
`pfx`; if the listing is empty return `None`; filter to names ending in
`.csv.gz`; if no file matches return `None`; otherwise sort newest-first
and return the first file's name. -/
def get_latest_report_filename (bucket : List ObjInfo) (pfx : String) :
    Option String :=
  let listed := list_objects bucket pfx
  if listed.isEmpty then none
  else
    let report_files := listed.filter (fun o => strEnds o.name csvGz)
    if report_files.isEmpty then none
    else (sortByTimeDesc report_files).head?.map ObjInfo.name

/-- Embedding of `send_latest_report.py` `ReportSender.get_latest_report_file`:
same selection as `get_latest_report_filename` with the fixed report name
start, returning the whole listing entry. -/
def get_latest_report_file (bucket : List ObjInfo) : Option ObjInfo :=
  let listed := list_objects bucket report_pfx
  if listed.isEmpty then none
  else
    let report_files := listed.filter (fun o => strEnds o.name csvGz)
    if report_files.isEmpty then none
    else (sortByTimeDesc report_files).head?

/-- The filtered set both locators select from: listed under `pfx` and
ending in `.csv.gz`. -/
def matchingReports (bucket : List ObjInfo) (pfx : String) : List ObjInfo :=
  (list_objects bucket pfx).filter (fun o => strEnds o.name csvGz)

/-- Concrete two-report bucket from the spec scenario (the `20240108`
report is created later than the `20240101` one). -/
def bucketW : List ObjInfo :=
  [⟨"WeeklyCostsScheduledReport_20240101.csv.gz", 20240101, 100⟩,
   ⟨"WeeklyCostsScheduledReport_20240108.csv.gz", 20240108, 200⟩]

/-- A Python exception as the scripts observe it: the class name
(`type(e).__name__`) and the message text. -/
structure PyErr where
  ty : String
  msg : String
  deriving DecidableEq

/-- One value of the sent-files ledger: the JSON object written per
fingerprint by `mark_file_as_sent`
(`{file_name, time_created, sent_at}`, all strings). -/
structure SentRecord where
  file_name : String
  time_created : String
  sent_at : String
  deriving DecidableEq

/-- The sent-files ledger persisted in `sent_files.json`: a JSON object
mapping fingerprint strings to `SentRecord`s, in insertion order. -/
abbrev Ledger : Type := List (String × SentRecord)

/-- Python dict membership `file_hash in self.sent_files`. -/
def ledgerHasKey (sent_files : Ledger) (k : String) : Bool :=
  sent_files.any (fun kv => kv.1 == k)

/-- Python dict assignment `self.sent_files[file_hash] = record`:
replaces the value in place when the key is present, else appends. -/
def ledgerInsert (sent_files : Ledger) (k : String) (v : SentRecord) :
    Ledger :=
  if ledgerHasKey sent_files k then
    sent_files.map (fun kv => if kv.1 == k then (k, v) else kv)
  else sent_files ++ [(k, v)]

/-- `f"{file_name}_{file_time_created}"` — the string hashed into the
dedupe fingerprint (`file_time_created` is the `str()` form of the
listing timestamp). -/
def file_key (file_name file_time_created : String) : String :=
  file_name ++ "_" ++ file_time_created

/-- `ReportSender.load_sent_files`: a missing or unreadable
`sent_files.json` (modelled as `none`) yields the empty ledger with only
a warning; otherwise the stored mapping is loaded. -/
def load_sent_files (stored : Option Ledger) : Ledger :=
  stored.getD []

/-- `ReportSender.is_file_already_sent`, parameterised by the digest
function `md5hex` (Python `hashlib.md5(file_key.encode()).hexdigest()`,
an external library function): hash the file key and test membership. -/
def is_file_already_sent (md5hex : String → String) (sent_files : Ledger)
    (file_name file_time_created : String) : Bool :=
  ledgerHasKey sent_files (md5hex (file_key file_name file_time_created))

/-- `ReportSender.mark_file_as_sent`: store the record under the hashed
file key, `now` being `datetime.now().isoformat()`.  The script then
rewrites `sent_files.json` wholesale (`save_sent_files`); the returned
ledger is that persisted content. -/
def mark_file_as_sent (md5hex : String → String) (sent_files : Ledger)
    (file_name file_time_created now : String) : Ledger :=
  ledgerInsert sent_files (md5hex (file_key file_name file_time_created))
    ⟨file_name, file_time_created, now⟩

/-- Outcome of one `ReportSender.run` invocation: the ledger after the
run, the name of the report emailed by this run (if any), and whether
the run ended in `sys.exit(1)`. -/
structure RunResult where
  sent_files : Ledger
  emailed : Option String
  exited_error : Bool
  deriving DecidableEq

/-- `ReportSender.run` with the external collaborators explicit:
`md5hex` the digest, `bucket` the bucket listing, `download` the
`download_file` outcome, `send` the `send_email` outcome (secret
retrieval, composition and SMTP dispatch), `now` the clock reading used
for `sent_at`.  Locate the latest report; nothing found is a normal
return; skip when already sent; a raising download or send is caught and
turned into `sys.exit(1)` with the ledger untouched; after a successful
send the file is marked as sent. -/
def run (md5hex : String → String) (bucket : List ObjInfo)
    (download : String → Except PyErr (List Nat))
    (send : String → List Nat → Except PyErr Unit)
    (now : String) (sent_files : Ledger) : RunResult :=
  match get_latest_report_file bucket with
  | none => ⟨sent_files, none, false⟩
  | some latest =>
    if is_file_already_sent md5hex sent_files latest.name
        (toString latest.time_created) then
      ⟨sent_files, none, false⟩
    else
      match download latest.name with
      | .error _ => ⟨sent_files, none, true⟩
      | .ok file_data =>
        match send latest.name file_data with
        | .error _ => ⟨sent_files, none, true⟩
        | .ok _ =>
          ⟨mark_file_as_sent md5hex sent_files latest.name
              (toString latest.time_created) now,
           some latest.name, false⟩

/-- Number of emails dispatched by one run (zero or one). -/
def emailCount (r : RunResult) : Nat :=
  if r.emailed.isSome then 1 else 0

/-- The base64 alphabet, in index order. -/
def b64Alphabet : List Char :=
  "ABCDEFGHIJKLMNOPQRSTUVWXYZabcdefghijklmnopqrstuvwxyz0123456789+/".toList

/-- The character encoding a six-bit group. -/
def b64char (n : Nat) : Char :=
  b64Alphabet.getD n 'A'

/-- The six-bit value of a base64 character. -/
def b64val (c : Char) : Nat :=
  b64Alphabet.indexOf c

/-- Core of binascii base64 encoding: each 3-byte group becomes 4
alphabet characters; a ragged tail of 1 or 2 bytes is padded with `=`. -/
def b64encodeChunks : List Nat → List Char
  | a :: b :: c :: rest =>
    b64char (a / 4) :: b64char ((a % 4) * 16 + b / 16) ::
      b64char ((b % 16) * 4 + c / 64) :: b64char (c % 64) ::
        b64encodeChunks rest
  | [a, b] =>
    [b64char (a / 4), b64char ((a % 4) * 16 + b / 16),
     b64char ((b % 16) * 4), '=']
  | [a] =>
    [b64char (a / 4), b64char ((a % 4) * 16), '=', '=']
  | [] => []

/-- Base64 decoding of a character stream: each 4-character group yields
3 bytes, or fewer when `=` padding ends the data. -/
def b64decode : List Char → List Nat
  | c1 :: c2 :: c3 :: c4 :: rest =>
    if c3 = '=' then
      [b64val c1 * 4 + b64val c2 / 16]
    else if c4 = '=' then
      [b64val c1 * 4 + b64val c2 / 16,
       b64val c2 % 16 * 16 + b64val c3 / 4]
    else
      (b64val c1 * 4 + b64val c2 / 16) ::
        (b64val c2 % 16 * 16 + b64val c3 / 4) ::
          (b64val c3 % 4 * 64 + b64val c4) :: b64decode rest
  | _ => []

/-- `base64.encodebytes`, as invoked by `email.encoders.encode_base64`
on the attachment payload: successive 57-byte chunks are each encoded to
a 76-character line followed by a newline.  The first argument is
recursion fuel (any value at least the byte count, see `encodebytes`),
which keeps the definition structurally recursive and hence evaluable. -/
def encodebytesF : Nat → List Nat → List Char
  | _, [] => []
  | 0, _ :: _ => []
  | fuel + 1, a :: rest =>
    b64encodeChunks (a :: rest.take 56) ++
      '\n' :: encodebytesF fuel (rest.drop 56)

/-- `base64.encodebytes` on a byte string. -/
def encodebytes (s : List Nat) : List Char :=
  encodebytesF s.length s

/-- `base64.decodebytes` on the transfer-encoded payload: non-alphabet
characters (here, the newlines inserted by `encodebytes`) are discarded
and the rest is base64-decoded. -/
def decodebytes (s : List Char) : List Nat :=
  b64decode (s.filter (fun c => c != '\n'))

/-- The attachment MIME part built by both scripts:
`MIMEBase("application", "octet-stream")`, payload set to the file
bytes, base64 transfer-encoded, with the filename in the
`Content-Disposition` header. -/
structure AttachmentPart where
  payload : List Char
  content_disposition : String
  deriving DecidableEq

/-- The multipart message both scripts assemble: headers, plain-text
body and the single binary attachment. -/
structure EmailMessage where
  from_addr : String
  to_addr : String
  subject : String
  text_body : String
  attachment : AttachmentPart
  deriving DecidableEq

/-- Quote character, written by code point to keep string literals
plain. -/
def sq : String :=
  String.singleton (Char.ofNat 39)

/-- Double-quote character. -/
def dq : String :=
  String.singleton (Char.ofNat 34)

/-- The `Content-Disposition` header value
`attachment; filename="<name>"` used by both scripts. -/
def contentDisposition (name : String) : String :=
  "attachment; filename=" ++ dq ++ name ++ dq

/-- Email assembly of `func.py` `handler` (lines 204-228): subject and
body interpolate the object name; the attachment carries the fetched
bytes, base64 transfer-encoded. -/
def compose_email (sender recipient name : String)
    (file_data : List Nat) : EmailMessage :=
  { from_addr := sender
    to_addr := recipient
    subject := "OCI Usage Report: " ++ name
    text_body :=
      "\nHello,\n\nPlease find attached the OCI Usage Report: " ++ name ++
        "\n\nThis report was automatically generated and sent by the " ++
        "OCI Functions service.\n\nBest regards,\nOCI Report Automation\n"
    attachment :=
      { payload := encodebytes file_data
        content_disposition := contentDisposition name } }

/-- Email assembly of `ReportSender.send_email` (lines 213-242): same
attachment construction as the event path, with the polling body text
(`now` is the formatted clock reading; the size figure is modelled
without locale comma grouping). -/
def send_email_message (sender recipient name now : String)
    (file_data : List Nat) : EmailMessage :=
  { from_addr := sender
    to_addr := recipient
    subject := "OCI Usage Report: " ++ name
    text_body :=
      "Hello,\n\nPlease find attached the latest OCI Usage Report: " ++
        name ++ "\n\nThis report was automatically generated and sent " ++
        "by the OCI Report Automation system.\n\nReport Details:\n- " ++
        "File: " ++ name ++ "\n- Size: " ++ toString file_data.length ++
        " bytes\n- Sent: " ++ now ++
        "\n\nBest regards,\nOCI Report Automation System"
    attachment :=
      { payload := encodebytes file_data
        content_disposition := contentDisposition name } }

/-- Character-list test that `p` occurs contiguously in `l`
(Python substring `in`). -/
def charsInfix (p l : List Char) : Bool :=
  l.tails.any (fun t => charsStart p t)

/-- A parsed JSON value, the result of `json.loads`.  Objects are
modelled as key-value lists in document order (`json.loads` collapses
duplicate keys, so keys are unique in values it produces). -/
inductive Json where
  | null : Json
  | bool (b : Bool) : Json
  | num (n : Int) : Json
  | str (s : String) : Json
  | arr (xs : List Json) : Json
  | obj (fields : List (String × Json)) : Json

/-- Python `key in body` on a parsed JSON value: key membership for a
dict, equality membership for a list (a string key can only equal string
elements), substring test for a string; `in` on `None`, booleans or
numbers raises `TypeError`. -/
def Json.hasKey : Json → String → Except PyErr Bool
  | .obj fields, key => .ok (fields.any (fun kv => kv.1 == key))
  | .arr xs, key =>
    .ok (xs.any (fun x => match x with
      | .str s => s == key
      | _ => false))
  | .str s, key => .ok (charsInfix key.toList s.toList)
  | .null, _ =>
    .error ⟨"TypeError", "argument of type NoneType is not iterable"⟩
  | .bool _, _ =>
    .error ⟨"TypeError", "argument of type bool is not iterable"⟩
  | .num _, _ =>
    .error ⟨"TypeError", "argument of type int is not iterable"⟩

/-- Python `body[key]` with a string key: dict lookup (`KeyError` when
the key is absent); strings and lists reject string subscripts; `None`,
booleans and numbers are not subscriptable at all. -/
def Json.index : Json → String → Except PyErr Json
  | .obj fields, key =>
    match fields.lookup key with
    | some v => .ok v
    | none => .error ⟨"KeyError", key⟩
  | .str _, _ => .error ⟨"TypeError", "string indices must be integers"⟩
  | .arr _, _ => .error ⟨"TypeError", "list indices must be integers"⟩
  | .null, _ => .error ⟨"TypeError", "NoneType is not subscriptable"⟩
  | .bool _, _ => .error ⟨"TypeError", "bool is not subscriptable"⟩
  | .num _, _ => .error ⟨"TypeError", "int is not subscriptable"⟩

/-- Lines 92-99 of `func.py`: with no input (`data` is `None`) the body
is `{}`; otherwise the `json.loads` outcome is used, where only a
`JSONDecodeError` is caught and replaced by `{}`; any other raise — such
as the `UnicodeDecodeError` that `json.loads` raises on bytes that are
not valid UTF-8, which is not a `JSONDecodeError` — propagates out of
the parsing step. -/
def parse_body (payload : Option (Except PyErr Json)) : Except PyErr Json :=
  match payload with
  | none => .ok (.obj [])
  | some (.ok j) => .ok j
  | some (.error e) =>
    if e.ty == "JSONDecodeError" then .ok (.obj []) else .error e

/-- Lines 101-113 of `func.py`: use `body["data"]["resourceName"]` when
`"data" in body and "resourceName" in body["data"]`, else
`body["objectName"]` when `"objectName" in body`, else the placeholder
`test-report.csv`; each membership probe and subscript can itself
raise. -/
def extract_object_name (body : Json) : Except PyErr Json :=
  match body.hasKey "data" with
  | .error e => .error e
  | .ok hasData =>
    match ((if hasData then
        match body.index "data" with
        | .error e => .error e
        | .ok d => d.hasKey "resourceName"
      else .ok false) : Except PyErr Bool) with
    | .error e => .error e
    | .ok true =>
      match body.index "data" with
      | .error e => .error e
      | .ok d => d.index "resourceName"
    | .ok false =>
      match body.hasKey "objectName" with
      | .error e => .error e
      | .ok true => body.index "objectName"
      | .ok false => .ok (.str "test-report.csv")

/-- Python `str()` of a parsed JSON value, as interpolated into the
subject, body and header text (container rendering abbreviated; nothing
proved depends on it). -/
def pyStr : Json → String
  | .null => "None"
  | .bool true => "True"
  | .bool false => "False"
  | .num n => toString n
  | .str s => s
  | .arr _ => "[...]"
  | .obj _ => "\x7b...\x7d"

/-- Python truthiness of `os.environ.get(var)` / `config.get(key)` under
`not value`: missing (`None`) or empty values are falsy. -/
def pyTruthy : Option String → Bool
  | none => false
  | some s => !(s == "")

/-- Lines 164-165 of `func.py`: the required environment variables. -/
def required_env_vars : List String :=
  ["SMTP_USERNAME_SECRET_OCID", "SMTP_PASSWORD_SECRET_OCID",
   "EMAIL_FROM", "EMAIL_TO", "NAMESPACE", "BUCKET_NAME"]

/-- External I/O actions an entry point performs, in order. -/
inductive Effect where
  | auth : Effect
  | getObject : Effect
  | getSecret : Effect
  | smtpSend : Effect
  deriving DecidableEq

/-- The environment of one `handler` invocation: the trigger payload
(`none` when the `data` argument is absent, otherwise the `json.loads`
outcome on its bytes), the signer-initialisation outcome (lines 117-141,
resource-principal or local-config — both perform external I/O), the
process environment, and the outcomes of the object fetch, the vault
secret fetches and the SMTP dispatch. -/
structure HandlerEnv where
  payload : Option (Except PyErr Json)
  auth : Except PyErr Unit
  envv : String → Option String
  get_object : Json → Except PyErr (List Nat)
  get_secret : String → Except PyErr String
  smtp : EmailMessage → Except PyErr Unit

/-- The fields of the handler's success result
`{status: "success", message, object_name, recipient}`. -/
structure SuccessData where
  message : String
  object_name : Json
  recipient : String

/-- The `try` block of `handler` (lines 89-259): parse the payload,
extract the object name, initialise authentication, check the required
environment variables — raising a `ValueError` that lists every missing
one — then fetch the object, fetch both SMTP secrets, compose the email
and dispatch it.  Returns the success data or the first raised
exception, together with the trace of external effects performed. -/
def handler_try (env : HandlerEnv) :
    Except PyErr SuccessData × List Effect :=
  match parse_body env.payload with
  | .error e => (.error e, [])
  | .ok body =>
  match extract_object_name body with
  | .error e => (.error e, [])
  | .ok object_name =>
  match env.auth with
  | .error e => (.error e, [.auth])
  | .ok _ =>
  let missing := required_env_vars.filter (fun v => !(pyTruthy (env.envv v)))
  if missing.isEmpty then
    match env.get_object object_name with
    | .error e => (.error e, [.auth, .getObject])
    | .ok file_data =>
    match env.get_secret ((env.envv "SMTP_USERNAME_SECRET_OCID").getD "") with
    | .error e => (.error e, [.auth, .getObject, .getSecret])
    | .ok _ =>
    match env.get_secret ((env.envv "SMTP_PASSWORD_SECRET_OCID").getD "") with
    | .error e => (.error e, [.auth, .getObject, .getSecret, .getSecret])
    | .ok _ =>
    match env.smtp (compose_email ((env.envv "EMAIL_FROM").getD "")
        ((env.envv "EMAIL_TO").getD "") (pyStr object_name) file_data) with
    | .error e =>
      (.error e, [.auth, .getObject, .getSecret, .getSecret, .smtpSend])
    | .ok _ =>
      (.ok ⟨"Email sent successfully for " ++ pyStr object_name,
        object_name, (env.envv "EMAIL_TO").getD ""⟩,
       [.auth, .getObject, .getSecret, .getSecret, .smtpSend])
  else
    (.error ⟨"ValueError", "Missing required environment variables: " ++
      String.intercalate ", " missing⟩, [.auth])

/-- The JSON result object `handler` returns: `{status: "success", ...}`
or `{status: "error", message, error_type}`. -/
inductive HandlerResult where
  | success (message : String) (object_name : Json) (recipient : String)
  | failure (message error_type : String)

/-- What one `handler` call leaves the caller with: the structured
response (or, with no platform context, a re-raised exception), the
HTTP-equivalent status code attached when a context is present, and the
trace of performed external effects. -/
structure HandlerOut where
  result : Except PyErr HandlerResult
  status_code : Option Nat
  trace : List Effect

/-- `handler` (lines 85-276): the `try` body wrapped by the
`except Exception` clause.  With a platform context (`ctx = true`) a
success is returned with status 200 and any exception becomes the error
result with status 500; without a context the exception is re-raised
after logging. -/
def handler (ctx : Bool) (env : HandlerEnv) : HandlerOut :=
  match handler_try env with
  | (.ok d, tr) =>
    ⟨.ok (.success d.message d.object_name d.recipient),
     if ctx then some 200 else none, tr⟩
  | (.error e, tr) =>
    if ctx then
      ⟨.ok (.failure ("Function execution failed: " ++ e.msg) e.ty),
       some 500, tr⟩
    else ⟨.error e, none, tr⟩

/-- The required keys of `config.env`
(`ReportSender.load_config`, lines 69-73). -/
def required_config_keys : List String :=
  ["NAMESPACE", "REPORT_BUCKET_NAME", "EMAIL_SENDER", "EMAIL_RECIPIENT",
   "SMTP_USERNAME_SECRET_OCID", "SMTP_PASSWORD_SECRET_OCID",
   "SMTP_SERVER", "SMTP_PORT"]

/-- Python `repr` of a list of strings, as `f"...{missing_keys}"`
renders the missing-keys list. -/
def pyReprStrList (l : List String) : String :=
  "[" ++ String.intercalate ", " (l.map (fun s => sq ++ s ++ sq)) ++ "]"

/-- `ReportSender.load_config` validation (lines 68-77), over the parsed
key-value mapping of the already-read `config.env`: the required keys
that are missing or empty are collected, and when any exist a
`ValueError` naming the whole list is raised. -/
def load_config (config : String → Option String) :
    Except PyErr (String → Option String) :=
  let missing_keys := required_config_keys.filter
    (fun k => !(pyTruthy (config k)))
  if missing_keys.isEmpty then .ok config
  else
    .error ⟨"ValueError", "Missing required configuration keys: " ++
      pyReprStrList missing_keys⟩

/-- `ReportSender.__init__` (lines 39-49): load and validate the
configuration, load the sent-files ledger (a local file), then set up
the OCI config, signer and clients — external I/O, modelled as one
`auth` outcome. -/
def report_sender_init (config : String → Option String)
    (stored : Option Ledger) (oci_setup : Except PyErr Unit) :
    Except PyErr ((String → Option String) × Ledger) × List Effect :=
  match load_config config with
  | .error e => (.error e, [])
  | .ok cfg =>
    let sent_files := load_sent_files stored
    match oci_setup with
    | .error e => (.error e, [.auth])
    | .ok _ => (.ok (cfg, sent_files), [.auth])

/-- A handler environment with a fully working platform but an empty
process environment (every required variable missing). -/
def env8 : HandlerEnv :=
  { payload := none
    auth := .ok ()
    envv := fun _ => none
    get_object := fun _ => .ok []
    get_secret := fun _ => .ok ""
    smtp := fun _ => .ok () }

/-- A handler environment whose payload models bytes that are not valid
UTF-8: `json.loads` raises `UnicodeDecodeError` on them. -/
def envU : HandlerEnv :=
  { payload := some (.error ⟨"UnicodeDecodeError", "invalid utf-8 byte"⟩)
    auth := .ok ()
    envv := fun v => some (v ++ "-value")
    get_object := fun _ => .ok [1]
    get_secret := fun _ => .ok "secret"
    smtp := fun _ => .ok () }

/-- A handler environment whose payload models valid UTF-8 text that is
not valid JSON: `json.loads` raises `JSONDecodeError` on it. -/
def envJ : HandlerEnv :=
  { envU with payload := some (.error ⟨"JSONDecodeError", "Expecting value"⟩) }

theorem sortByTimeDesc_head_max :
    ∀ l : List ObjInfo, l ≠ [] →
      ∃ m, (sortByTimeDesc l).head? = some m ∧ m ∈ l ∧
        ∀ y ∈ l, y.time_created ≤ m.time_created := by
  intro l
  induction l with
  | nil => intro h; exact absurd rfl h
  | cons x xs ih =>
    intro _
    by_cases hxs : xs = []
    · subst hxs
      refine ⟨x, rfl, by simp, ?_⟩
      intro y hy
      rcases List.mem_singleton.mp hy with rfl
      exact Nat.le_refl _
    · obtain ⟨m, hm, hmem, hmax⟩ := ih hxs
      obtain ⟨t, ht⟩ : ∃ t, sortByTimeDesc xs = m :: t := by
        cases h : sortByTimeDesc xs with
        | nil => rw [h] at hm; cases hm
        | cons a t =>
          rw [h] at hm
          refine ⟨t, ?_⟩
          cases hm
          rfl
      by_cases hcmp : m.time_created < x.time_created
      · refine ⟨x, ?_, by simp, ?_⟩
        · simp [sortByTimeDesc, ht, insertByTime, hcmp]
        · intro y hy
          rcases List.mem_cons.mp hy with h | h
          · subst h; exact Nat.le_refl _
          · exact Nat.le_trans (hmax y h) (Nat.le_of_lt hcmp)
      · refine ⟨m, ?_, List.mem_cons_of_mem _ hmem, ?_⟩
        · simp [sortByTimeDesc, ht, insertByTime, hcmp]
        · intro y hy
          rcases List.mem_cons.mp hy with h | h
          · subst h; exact Nat.le_of_not_lt hcmp
          · exact hmax y h

theorem get_latest_report_filename_spec (bucket : List ObjInfo) (pfx : String) :
    (matchingReports bucket pfx = [] →
      get_latest_report_filename bucket pfx = none) ∧
    (matchingReports bucket pfx ≠ [] →
      ∃ o ∈ matchingReports bucket pfx,
        get_latest_report_filename bucket pfx = some o.name ∧
        ∀ y ∈ matchingReports bucket pfx, y.time_created ≤ o.time_created) := by
  constructor
  · intro hnil
    unfold get_latest_report_filename
    by_cases hL : (list_objects bucket pfx).isEmpty
    · simp [hL]
    · simp only [hL, if_false]
      have : ((list_objects bucket pfx).filter
          (fun o => strEnds o.name csvGz)).isEmpty = true := by
        rw [List.isEmpty_iff]
        exact hnil
      simp [this]
  · intro hne
    obtain ⟨m, hm, hmem, hmax⟩ := sortByTimeDesc_head_max _ hne
    refine ⟨m, hmem, ?_, hmax⟩
    have hRne : (list_objects bucket pfx).filter
        (fun o => strEnds o.name csvGz) ≠ [] := hne
    have hLne : list_objects bucket pfx ≠ [] := by
      intro h
      apply hRne
      rw [h]
      rfl
    have hm' : (sortByTimeDesc ((list_objects bucket pfx).filter
        (fun o => strEnds o.name csvGz))).head? = some m := hm
    simp only [get_latest_report_filename]
    rw [if_neg (by rw [List.isEmpty_iff]; exact hLne)]
    rw [if_neg (by rw [List.isEmpty_iff]; exact hRne)]
    rw [hm']
    rfl

theorem get_latest_report_file_spec (bucket : List ObjInfo) :
    (matchingReports bucket report_pfx = [] →
      get_latest_report_file bucket = none) ∧
    (matchingReports bucket report_pfx ≠ [] →
      ∃ o ∈ matchingReports bucket report_pfx,
        get_latest_report_file bucket = some o ∧
        ∀ y ∈ matchingReports bucket report_pfx,
          y.time_created ≤ o.time_created) := by
  constructor
  · intro hnil
    unfold get_latest_report_file
    by_cases hL : (list_objects bucket report_pfx).isEmpty
    · simp [hL]
    · simp only [hL, if_false]
      have : ((list_objects bucket report_pfx).filter
          (fun o => strEnds o.name csvGz)).isEmpty = true := by
        rw [List.isEmpty_iff]
        exact hnil
      simp [this]
  · intro hne
    obtain ⟨m, hm, hmem, hmax⟩ := sortByTimeDesc_head_max _ hne
    refine ⟨m, hmem, ?_, hmax⟩
    have hRne : (list_objects bucket report_pfx).filter
        (fun o => strEnds o.name csvGz) ≠ [] := hne
    have hLne : list_objects bucket report_pfx ≠ [] := by
      intro h
      apply hRne
      rw [h]
      rfl
    have hm' : (sortByTimeDesc ((list_objects bucket report_pfx).filter
        (fun o => strEnds o.name csvGz))).head? = some m := hm
    simp only [get_latest_report_file]
    rw [if_neg (by rw [List.isEmpty_iff]; exact hLne)]
    rw [if_neg (by rw [List.isEmpty_iff]; exact hRne)]
    exact hm'

/-- C1: for every object listing whose filtered set (names with the given
start that end with `.csv.gz`) is non-empty, `get_latest_report_filename`
(event path) and `get_latest_report_file` (polling path) each return an
entry with the maximum creation timestamp; when the filtered set is empty
(including an entirely empty listing) both return `none` without raising. -/
theorem claim_C1_object_locator (bucket : List ObjInfo) (pfx : String) :
    ((matchingReports bucket pfx = [] →
        get_latest_report_filename bucket pfx = none) ∧
     (matchingReports bucket pfx ≠ [] →
        ∃ o ∈ matchingReports bucket pfx,
          get_latest_report_filename bucket pfx = some o.name ∧
          ∀ y ∈ matchingReports bucket pfx,
            y.time_created ≤ o.time_created)) ∧
    ((matchingReports bucket report_pfx = [] →
        get_latest_report_file bucket = none) ∧
     (matchingReports bucket report_pfx ≠ [] →
        ∃ o ∈ matchingReports bucket report_pfx,
          get_latest_report_file bucket = some o ∧
          ∀ y ∈ matchingReports bucket report_pfx,
            y.time_created ≤ o.time_created)) :=
  ⟨get_latest_report_filename_spec bucket pfx, get_latest_report_file_spec bucket⟩

/-- Witness for C1 on the spec scenario bucket: the filtered set is
non-empty and the locator picks the later (`20240108`) report. -/
theorem claim_C1_object_locator_witness :
    matchingReports bucketW report_pfx ≠ [] ∧
    ∃ o ∈ matchingReports bucketW report_pfx,
      get_latest_report_filename bucketW report_pfx = some o.name ∧
      ∀ y ∈ matchingReports bucketW report_pfx,
        y.time_created ≤ o.time_created :=
  ⟨by decide, (claim_C1_object_locator bucketW report_pfx).1.2 (by decide)⟩

theorem ledgerHasKey_insert (sent_files : Ledger) (k : String)
    (v : SentRecord) :
    ledgerHasKey (ledgerInsert sent_files k v) k = true := by
  unfold ledgerInsert
  by_cases h : ledgerHasKey sent_files k
  · rw [if_pos h]
    unfold ledgerHasKey at *
    rw [List.any_map]
    rw [List.any_eq_true] at h ⊢
    obtain ⟨kv, hkv, hk⟩ := h
    refine ⟨kv, hkv, ?_⟩
    simp only [Function.comp]
    rw [if_pos hk]
    exact beq_self_eq_true k
  · rw [if_neg h]
    unfold ledgerHasKey
    rw [List.any_append]
    simp

theorem emailCount_le_one (r : RunResult) : emailCount r ≤ 1 := by
  unfold emailCount
  split <;> omega

/-- C4: marking a file as sent and then asking `is_file_already_sent`
for the same (name, createdAt) yields `true`, for any digest, ledger and
clock; and on a fresh ledger (missing or unreadable `sent_files.json`,
loaded as empty without failing) `is_file_already_sent` is `false` for
every fingerprint. -/
theorem claim_C4_ledger_roundtrip :
    (∀ (md5hex : String → String) (sent_files : Ledger)
        (file_name file_time_created now : String),
      is_file_already_sent md5hex
        (mark_file_as_sent md5hex sent_files file_name file_time_created now)
        file_name file_time_created = true) ∧
    (∀ (md5hex : String → String) (file_name file_time_created : String),
      is_file_already_sent md5hex (load_sent_files none)
        file_name file_time_created = false) := by
  constructor
  · intro md5hex sent_files file_name file_time_created now
    unfold is_file_already_sent mark_file_as_sent
    exact ledgerHasKey_insert _ _ _
  · intro md5hex file_name file_time_created
    rfl

/-- C9: the dedupe fingerprint is the digest of
`file_key = name ++ "_" ++ str(createdAt)` and so depends only on that
concatenation; two distinct (name, createdAt) pairs with coinciding
concatenations receive the same fingerprint and are indistinguishable to
`is_file_already_sent` on every ledger. -/
theorem claim_C9_fingerprint_collision (md5hex : String → String)
    (n₁ t₁ n₂ t₂ : String) (_hne : (n₁, t₁) ≠ (n₂, t₂))
    (hkey : file_key n₁ t₁ = file_key n₂ t₂) :
    md5hex (file_key n₁ t₁) = md5hex (file_key n₂ t₂) ∧
    ∀ sent_files : Ledger,
      is_file_already_sent md5hex sent_files n₁ t₁ =
        is_file_already_sent md5hex sent_files n₂ t₂ := by
  constructor
  · rw [hkey]
  · intro sent_files
    unfold is_file_already_sent
    rw [hkey]

/-- Witness for C9 at the colliding pairs `("a_b", "c")` and
`("a", "b_c")` (digest instantiated with the identity). -/
theorem claim_C9_fingerprint_collision_witness :
    (fun s => s) (file_key "a_b" "c") = (fun s => s) (file_key "a" "b_c") ∧
    ∀ sent_files : Ledger,
      is_file_already_sent (fun s => s) sent_files "a_b" "c" =
        is_file_already_sent (fun s => s) sent_files "a" "b_c" :=
  claim_C9_fingerprint_collision (fun s => s) "a_b" "c" "a" "b_c"
    (by decide) (by decide)

/-- C2: with the bucket unchanged between two consecutive `run`
invocations (the download and send outcomes of each run may even
differ), the two runs dispatch at most one email in total, and if the
first run dispatched, the second is a no-op thanks to the
`is_file_already_sent` check on the intact ledger. -/
theorem claim_C2_run_idempotent (md5hex : String → String)
    (bucket : List ObjInfo)
    (download₁ download₂ : String → Except PyErr (List Nat))
    (send₁ send₂ : String → List Nat → Except PyErr Unit)
    (now₁ now₂ : String) (sent_files : Ledger) :
    emailCount (run md5hex bucket download₁ send₁ now₁ sent_files) +
      emailCount (run md5hex bucket download₂ send₂ now₂
        (run md5hex bucket download₁ send₁ now₁ sent_files).sent_files) ≤ 1 ∧
    ((run md5hex bucket download₁ send₁ now₁ sent_files).emailed.isSome →
      run md5hex bucket download₂ send₂ now₂
          (run md5hex bucket download₁ send₁ now₁ sent_files).sent_files =
        ⟨(run md5hex bucket download₁ send₁ now₁ sent_files).sent_files,
         none, false⟩) := by
  cases hlf : get_latest_report_file bucket with
  | none =>
    constructor
    · simp [run, hlf, emailCount]
    · intro hsome
      simp [run, hlf] at hsome
  | some latest =>
    by_cases hsent : is_file_already_sent md5hex sent_files latest.name
        (toString latest.time_created) = true
    · constructor
      · simp [run, hlf, hsent, emailCount]
      · intro hsome
        simp [run, hlf, hsent] at hsome
    · cases hdl : download₁ latest.name with
      | error e =>
        constructor
        · have h1 : emailCount (run md5hex bucket download₁ send₁ now₁
              sent_files) = 0 := by
            simp [run, hlf, hsent, hdl, emailCount]
          rw [h1]
          simpa using emailCount_le_one _
        · intro hsome
          simp [run, hlf, hsent, hdl] at hsome
      | ok file_data =>
        cases hsd : send₁ latest.name file_data with
        | error e =>
          constructor
          · have h1 : emailCount (run md5hex bucket download₁ send₁ now₁
                sent_files) = 0 := by
              simp [run, hlf, hsent, hdl, hsd, emailCount]
            rw [h1]
            simpa using emailCount_le_one _
          · intro hsome
            simp [run, hlf, hsent, hdl, hsd] at hsome
        | ok u =>
          have hmark : is_file_already_sent md5hex
              (mark_file_as_sent md5hex sent_files latest.name
                (toString latest.time_created) now₁)
              latest.name (toString latest.time_created) = true := by
            unfold is_file_already_sent mark_file_as_sent
            exact ledgerHasKey_insert _ _ _
          constructor
          · simp [run, hlf, hsent, hdl, hsd, hmark, emailCount]
          · intro _
            simp [run, hlf, hsent, hdl, hsd, hmark]

/-- Witness for C2: a fully successful environment over the scenario
bucket; the first run dispatches, so the second run is a no-op. -/
theorem claim_C2_run_idempotent_witness :
    emailCount (run (fun s => s) bucketW (fun _ => .ok [1, 2])
        (fun _ _ => .ok ()) "t1" []) +
      emailCount (run (fun s => s) bucketW (fun _ => .ok [1, 2])
        (fun _ _ => .ok ()) "t2"
        (run (fun s => s) bucketW (fun _ => .ok [1, 2])
          (fun _ _ => .ok ()) "t1" []).sent_files) ≤ 1 ∧
    run (fun s => s) bucketW (fun _ => .ok [1, 2]) (fun _ _ => .ok ()) "t2"
        (run (fun s => s) bucketW (fun _ => .ok [1, 2])
          (fun _ _ => .ok ()) "t1" []).sent_files =
      ⟨(run (fun s => s) bucketW (fun _ => .ok [1, 2])
          (fun _ _ => .ok ()) "t1" []).sent_files, none, false⟩ := by
  have h := claim_C2_run_idempotent (fun s => s) bucketW
    (fun _ => .ok [1, 2]) (fun _ => .ok [1, 2])
    (fun _ _ => .ok ()) (fun _ _ => .ok ()) "t1" "t2" []
  exact ⟨h.1, h.2 (by decide)⟩

/-- C3: after one `run`, the ledger gains the record for the latest
report exactly when an email for it was dispatched: if nothing was
emailed (nothing found, already sent, download raised, or send raised)
the ledger is unchanged — in particular on every erroring run — and if a
report was emailed the ledger is the previous one with that report
marked, so its fingerprint now tests as sent. -/
theorem claim_C3_mark_iff_dispatch (md5hex : String → String)
    (bucket : List ObjInfo) (download : String → Except PyErr (List Nat))
    (send : String → List Nat → Except PyErr Unit)
    (now : String) (sent_files : Ledger) :
    ((run md5hex bucket download send now sent_files).emailed = none →
      (run md5hex bucket download send now sent_files).sent_files =
        sent_files) ∧
    ((run md5hex bucket download send now sent_files).exited_error = true →
      (run md5hex bucket download send now sent_files).sent_files =
        sent_files) ∧
    (∀ f, (run md5hex bucket download send now sent_files).emailed = some f →
      ∃ latest, get_latest_report_file bucket = some latest ∧
        f = latest.name ∧
        is_file_already_sent md5hex sent_files latest.name
          (toString latest.time_created) = false ∧
        (run md5hex bucket download send now sent_files).sent_files =
          mark_file_as_sent md5hex sent_files latest.name
            (toString latest.time_created) now ∧
        is_file_already_sent md5hex
          (run md5hex bucket download send now sent_files).sent_files
          latest.name (toString latest.time_created) = true) := by
  cases hlf : get_latest_report_file bucket with
  | none =>
    refine ⟨?_, ?_, ?_⟩ <;> simp [run, hlf]
  | some latest =>
    by_cases hsent : is_file_already_sent md5hex sent_files latest.name
        (toString latest.time_created) = true
    · refine ⟨?_, ?_, ?_⟩ <;> simp [run, hlf, hsent]
    · cases hdl : download latest.name with
      | error e =>
        refine ⟨?_, ?_, ?_⟩ <;> simp [run, hlf, hsent, hdl]
      | ok file_data =>
        cases hsd : send latest.name file_data with
        | error e =>
          refine ⟨?_, ?_, ?_⟩ <;> simp [run, hlf, hsent, hdl, hsd]
        | ok u =>
          have hmark : is_file_already_sent md5hex
              (mark_file_as_sent md5hex sent_files latest.name
                (toString latest.time_created) now)
              latest.name (toString latest.time_created) = true := by
            unfold is_file_already_sent mark_file_as_sent
            exact ledgerHasKey_insert _ _ _
          refine ⟨?_, ?_, ?_⟩
          · intro hnone
            simp [run, hlf, hsent, hdl, hsd] at hnone
          · intro herr
            simp [run, hlf, hsent, hdl, hsd] at herr
          · intro f hf
            simp only [run, hlf, hsent, hdl, hsd] at hf ⊢
            refine ⟨latest, rfl, ?_, ?_, ?_, ?_⟩
            · simp at hf
              exact hf.symm
            · simpa using hsent
            · simp
            · simpa using hmark

theorem b64char_mem (n : Nat) : b64char n ∈ b64Alphabet := by
  unfold b64char
  rw [List.getD_eq_getElem?_getD]
  cases h : b64Alphabet[n]? with
  | none => simp [Option.getD]; decide
  | some c =>
    have := List.getElem?_mem h
    simpa [Option.getD] using this

theorem mem_alphabet_ne_pad : ∀ c ∈ b64Alphabet, c ≠ '=' := by decide

theorem mem_alphabet_ne_nl : ∀ c ∈ b64Alphabet, c ≠ '\n' := by decide

theorem b64char_ne_pad (n : Nat) : b64char n ≠ '=' :=
  mem_alphabet_ne_pad _ (b64char_mem n)

theorem b64char_ne_nl (n : Nat) : b64char n ≠ '\n' :=
  mem_alphabet_ne_nl _ (b64char_mem n)

theorem b64val_b64char : ∀ n, n < 64 → b64val (b64char n) = n := by decide

theorem b64encodeChunks_no_nl :
    ∀ l : List Nat, ∀ c ∈ b64encodeChunks l, c ≠ '\n'
  | a :: b :: c :: rest => by
    intro x hx
    simp only [b64encodeChunks, List.mem_cons] at hx
    rcases hx with rfl | rfl | rfl | rfl | hx
    · exact b64char_ne_nl _
    · exact b64char_ne_nl _
    · exact b64char_ne_nl _
    · exact b64char_ne_nl _
    · exact b64encodeChunks_no_nl rest x hx
  | [a, b] => by
    intro x hx
    simp only [b64encodeChunks, List.mem_cons] at hx
    rcases hx with rfl | rfl | rfl | rfl | hx
    · exact b64char_ne_nl _
    · exact b64char_ne_nl _
    · exact b64char_ne_nl _
    · decide
    · simp at hx
  | [a] => by
    intro x hx
    simp only [b64encodeChunks, List.mem_cons] at hx
    rcases hx with rfl | rfl | rfl | rfl | hx
    · exact b64char_ne_nl _
    · exact b64char_ne_nl _
    · decide
    · decide
    · simp at hx
  | [] => by
    intro x hx
    simp [b64encodeChunks] at hx

theorem b64decode_encodeChunks_append :
    ∀ (l : List Nat) (tl : List Char), (∀ b ∈ l, b < 256) →
      l.length % 3 = 0 →
      b64decode (b64encodeChunks l ++ tl) = l ++ b64decode tl
  | [], tl, _, _ => by simp [b64encodeChunks]
  | [a], tl, _, hlen => by simp at hlen
  | [a, b], tl, _, hlen => by simp at hlen
  | a :: b :: c :: rest, tl, h, hlen => by
    have ha : a < 256 := h a (by simp)
    have hb : b < 256 := h b (by simp)
    have hc : c < 256 := h c (by simp)
    have hrest : ∀ x ∈ rest, x < 256 := fun x hx => h x (by simp [hx])
    have hlen' : rest.length % 3 = 0 := by
      simp only [List.length_cons] at hlen
      omega
    have e1 : b64val (b64char (a / 4)) = a / 4 :=
      b64val_b64char _ (by omega)
    have e2 : b64val (b64char ((a % 4) * 16 + b / 16)) =
        (a % 4) * 16 + b / 16 := b64val_b64char _ (by omega)
    have e3 : b64val (b64char ((b % 16) * 4 + c / 64)) =
        (b % 16) * 4 + c / 64 := b64val_b64char _ (by omega)
    have e4 : b64val (b64char (c % 64)) = c % 64 :=
      b64val_b64char _ (by omega)
    simp only [b64encodeChunks, List.cons_append, List.append_eq, b64decode]
    rw [if_neg (b64char_ne_pad _), if_neg (b64char_ne_pad _)]
    rw [e1, e2, e3, e4]
    rw [b64decode_encodeChunks_append rest tl hrest hlen']
    have g1 : a / 4 * 4 + ((a % 4) * 16 + b / 16) / 16 = a := by omega
    have g2 : ((a % 4) * 16 + b / 16) % 16 * 16 +
        ((b % 16) * 4 + c / 64) / 4 = b := by omega
    have g3 : ((b % 16) * 4 + c / 64) % 4 * 64 + c % 64 = c := by omega
    rw [g1, g2, g3]

theorem b64decode_encodeChunks :
    ∀ l : List Nat, (∀ b ∈ l, b < 256) →
      b64decode (b64encodeChunks l) = l
  | [], _ => rfl
  | [a], h => by
    have ha : a < 256 := h a (by simp)
    have e1 : b64val (b64char (a / 4)) = a / 4 :=
      b64val_b64char _ (by omega)
    have e2 : b64val (b64char ((a % 4) * 16)) = (a % 4) * 16 :=
      b64val_b64char _ (by omega)
    simp only [b64encodeChunks, b64decode]
    simp [e1, e2]
    omega
  | [a, b], h => by
    have ha : a < 256 := h a (by simp)
    have hb : b < 256 := h b (by simp)
    have e1 : b64val (b64char (a / 4)) = a / 4 :=
      b64val_b64char _ (by omega)
    have e2 : b64val (b64char ((a % 4) * 16 + b / 16)) =
        (a % 4) * 16 + b / 16 := b64val_b64char _ (by omega)
    have e3 : b64val (b64char ((b % 16) * 4)) = (b % 16) * 4 :=
      b64val_b64char _ (by omega)
    simp only [b64encodeChunks, b64decode]
    rw [if_neg (b64char_ne_pad _)]
    simp [e1, e2, e3]
    omega
  | a :: b :: c :: rest, h => by
    have hrest : ∀ x ∈ rest, x < 256 := fun x hx => h x (by simp [hx])
    have hr := b64decode_encodeChunks rest hrest
    have ha : a < 256 := h a (by simp)
    have hb : b < 256 := h b (by simp)
    have hc : c < 256 := h c (by simp)
    have e1 : b64val (b64char (a / 4)) = a / 4 :=
      b64val_b64char _ (by omega)
    have e2 : b64val (b64char ((a % 4) * 16 + b / 16)) =
        (a % 4) * 16 + b / 16 := b64val_b64char _ (by omega)
    have e3 : b64val (b64char ((b % 16) * 4 + c / 64)) =
        (b % 16) * 4 + c / 64 := b64val_b64char _ (by omega)
    have e4 : b64val (b64char (c % 64)) = c % 64 :=
      b64val_b64char _ (by omega)
    simp only [b64encodeChunks, b64decode]
    rw [if_neg (b64char_ne_pad _), if_neg (b64char_ne_pad _)]
    rw [e1, e2, e3, e4, hr]
    have g1 : a / 4 * 4 + ((a % 4) * 16 + b / 16) / 16 = a := by omega
    have g2 : ((a % 4) * 16 + b / 16) % 16 * 16 +
        ((b % 16) * 4 + c / 64) / 4 = b := by omega
    have g3 : ((b % 16) * 4 + c / 64) % 4 * 64 + c % 64 = c := by omega
    rw [g1, g2, g3]

theorem encodebytesF_rt :
    ∀ (fuel : Nat) (s : List Nat), s.length ≤ fuel →
      (∀ b ∈ s, b < 256) → decodebytes (encodebytesF fuel s) = s := by
  intro fuel
  induction fuel with
  | zero =>
    intro s hl _
    cases s with
    | nil => rfl
    | cons a rest => simp at hl
  | succ n ih =>
    intro s hl h
    cases s with
    | nil => rfl
    | cons a rest =>
      unfold decodebytes
      simp only [encodebytesF]
      rw [List.filter_append]
      have hchunk : (b64encodeChunks (a :: rest.take 56)).filter
          (fun c => c != '\n') = b64encodeChunks (a :: rest.take 56) := by
        rw [List.filter_eq_self]
        intro c hcmem
        simpa [bne] using b64encodeChunks_no_nl _ c hcmem
      rw [hchunk]
      have hnl : (('\n' :: encodebytesF n (rest.drop 56)).filter
          (fun c => c != '\n')) =
          (encodebytesF n (rest.drop 56)).filter (fun c => c != '\n') := by
        simp
      rw [hnl]
      have hmemtake : ∀ b ∈ a :: rest.take 56, b < 256 := by
        intro x hx
        rcases List.mem_cons.mp hx with rfl | hx
        · exact h x (by simp)
        · exact h x (List.mem_cons_of_mem _ (List.take_subset _ _ hx))
      by_cases hlen : rest.length ≤ 56
      · have hdrop : rest.drop 56 = [] := by
          rw [List.drop_eq_nil_iff]
          omega
        have htake : rest.take 56 = rest := List.take_of_length_le hlen
        rw [hdrop]
        simp only [encodebytesF, List.filter_nil, List.append_nil]
        rw [htake]
        exact b64decode_encodeChunks (a :: rest) h
      · have hlen57 : (a :: rest.take 56).length % 3 = 0 := by
          simp [List.length_take]
          omega
        have hdl : (rest.drop 56).length ≤ n := by
          simp only [List.length_cons] at hl
          simp [List.length_drop]
          omega
        have hih := ih (rest.drop 56) hdl
          (fun x hx => h x (List.mem_cons_of_mem _ (List.drop_subset _ _ hx)))
        unfold decodebytes at hih
        rw [b64decode_encodeChunks_append _ _ hmemtake hlen57, hih]
        rw [List.cons_append, List.take_append_drop]

/-- C6: for every attachment byte payload, decoding the base64 payload
of the composed message's attachment part — on the event path
(`compose_email`) and on the polling path (`send_email_message`) —
yields exactly the original input bytes. -/
theorem claim_C6_attachment_roundtrip (sender recipient name now : String)
    (file_data : List Nat) (h : ∀ b ∈ file_data, b < 256) :
    decodebytes
        (compose_email sender recipient name file_data).attachment.payload =
      file_data ∧
    decodebytes
        (send_email_message sender recipient name now
          file_data).attachment.payload = file_data := by
  constructor
  · exact encodebytesF_rt _ _ (Nat.le_refl _) h
  · exact encodebytesF_rt _ _ (Nat.le_refl _) h

/-- Witness for C6 at a concrete five-byte payload. -/
theorem claim_C6_attachment_roundtrip_witness :
    decodebytes
        (compose_email "sender" "recipient" "r.csv.gz"
          [79, 67, 73, 255, 0]).attachment.payload = [79, 67, 73, 255, 0] ∧
    decodebytes
        (send_email_message "sender" "recipient" "r.csv.gz" "now"
          [79, 67, 73, 255, 0]).attachment.payload = [79, 67, 73, 255, 0] :=
  claim_C6_attachment_roundtrip "sender" "recipient" "r.csv.gz" "now"
    [79, 67, 73, 255, 0] (by decide)

/-- Witness for C3 at a fully successful environment over the scenario
bucket: the run dispatches the later report and records exactly it. -/
theorem claim_C3_mark_iff_dispatch_witness :
    ∃ latest, get_latest_report_file bucketW = some latest ∧
      "WeeklyCostsScheduledReport_20240108.csv.gz" = latest.name ∧
      is_file_already_sent (fun s => s) [] latest.name
        (toString latest.time_created) = false ∧
      (run (fun s => s) bucketW (fun _ => .ok [1]) (fun _ _ => .ok ())
        "t" []).sent_files =
        mark_file_as_sent (fun s => s) [] latest.name
          (toString latest.time_created) "t" ∧
      is_file_already_sent (fun s => s)
        (run (fun s => s) bucketW (fun _ => .ok [1]) (fun _ _ => .ok ())
          "t" []).sent_files
        latest.name (toString latest.time_created) = true :=
  (claim_C3_mark_iff_dispatch (fun s => s) bucketW (fun _ => .ok [1])
    (fun _ _ => .ok ()) "t" []).2.2
    "WeeklyCostsScheduledReport_20240108.csv.gz" (by decide)

/-- C5: for every environment — hence for every input and every
failure — the platform-invoked handler returns a structured result and
never leaves the caller without a response: a success object
(message, object name, recipient) with status 200, or an error object
carrying the exception class name with status 500. -/
theorem claim_C5_handler_structured (env : HandlerEnv) :
    (∃ m o r tr, handler true env =
      ⟨.ok (.success m o r), some 200, tr⟩) ∨
    (∃ m t tr, handler true env =
      ⟨.ok (.failure m t), some 500, tr⟩) := by
  rcases h : handler_try env with ⟨res, tr⟩
  cases res with
  | ok d =>
    left
    exact ⟨d.message, d.object_name, d.recipient, tr,
      by unfold handler; rw [h]; rfl⟩
  | error e =>
    right
    exact ⟨"Function execution failed: " ++ e.msg, e.ty, tr,
      by unfold handler; rw [h]; rfl⟩

theorem any_beq_eq_lookup_isSome (l : List (String × Json)) (k : String) :
    l.any (fun kv => kv.1 == k) = (l.lookup k).isSome := by
  induction l with
  | nil => rfl
  | cons kv t ih =>
    rcases kv with ⟨a, b⟩
    by_cases h : a = k
    · subst h
      simp [List.lookup]
    · have h1 : (a == k) = false := by simp [h]
      have h2 : (k == a) = false := by simp [Ne.symm h]
      simp [List.lookup, List.any_cons, h1, h2, ih]

/-- Counterexample to C7 as stated: the valid JSON trigger payloads `5`
(not an object) and `{"data": 5}` (whose probe
`"resourceName" in body["data"]` hits a non-container) have neither
`data.resourceName` nor `objectName`, yet the handler does not fall back
to the placeholder: extraction raises `TypeError`, which the outer
handler reports as an error response (only the genuinely empty object
`{}` takes the placeholder path). -/
theorem claim_C7_counterexample :
    extract_object_name (Json.num 5) =
      .error ⟨"TypeError", "argument of type int is not iterable"⟩ ∧
    extract_object_name (Json.num 5) ≠ .ok (Json.str "test-report.csv") ∧
    extract_object_name (Json.obj [("data", Json.num 5)]) =
      .error ⟨"TypeError", "argument of type int is not iterable"⟩ ∧
    extract_object_name (Json.obj [("data", Json.num 5)]) ≠
      .ok (Json.str "test-report.csv") ∧
    extract_object_name (Json.obj []) = .ok (Json.str "test-report.csv") := by
  refine ⟨rfl, ?_, rfl, ?_, rfl⟩
  · intro h
    rw [show extract_object_name (Json.num 5) =
      .error ⟨"TypeError", "argument of type int is not iterable"⟩
      from rfl] at h
    exact Except.noConfusion h
  · intro h
    rw [show extract_object_name (Json.obj [("data", Json.num 5)]) =
      .error ⟨"TypeError", "argument of type int is not iterable"⟩
      from rfl] at h
    exact Except.noConfusion h

/-- C7 (amended): for every trigger payload parsing to a JSON object
whose `data` member, when present, is itself a JSON object, the handler
takes the object name from the nested `data.resourceName` when present,
otherwise from the top-level `objectName` when present, and when both
are absent (including the empty payload `{}`) falls back to the
placeholder `test-report.csv` without raising. -/
theorem claim_C7_extract_priority (fields : List (String × Json)) :
    (∀ dfields v, fields.lookup "data" = some (Json.obj dfields) →
      dfields.lookup "resourceName" = some v →
      extract_object_name (Json.obj fields) = .ok v) ∧
    (∀ dfields w, fields.lookup "data" = some (Json.obj dfields) →
      dfields.lookup "resourceName" = none →
      fields.lookup "objectName" = some w →
      extract_object_name (Json.obj fields) = .ok w) ∧
    (∀ dfields, fields.lookup "data" = some (Json.obj dfields) →
      dfields.lookup "resourceName" = none →
      fields.lookup "objectName" = none →
      extract_object_name (Json.obj fields) =
        .ok (Json.str "test-report.csv")) ∧
    (∀ w, fields.lookup "data" = none →
      fields.lookup "objectName" = some w →
      extract_object_name (Json.obj fields) = .ok w) ∧
    (fields.lookup "data" = none → fields.lookup "objectName" = none →
      extract_object_name (Json.obj fields) =
        .ok (Json.str "test-report.csv")) := by
  refine ⟨?_, ?_, ?_, ?_, ?_⟩
  · intro dfields v hd hr
    simp [extract_object_name, Json.hasKey, Json.index,
      any_beq_eq_lookup_isSome, hd, hr]
  · intro dfields w hd hr hw
    simp [extract_object_name, Json.hasKey, Json.index,
      any_beq_eq_lookup_isSome, hd, hr, hw]
  · intro dfields hd hr hw
    simp [extract_object_name, Json.hasKey, Json.index,
      any_beq_eq_lookup_isSome, hd, hr, hw]
  · intro w hd hw
    simp [extract_object_name, Json.hasKey, Json.index,
      any_beq_eq_lookup_isSome, hd, hw]
  · intro hd hw
    simp [extract_object_name, Json.hasKey, Json.index,
      any_beq_eq_lookup_isSome, hd, hw]

/-- Witness for C7 (amended) on the spec scenario payload
`{"data": {"resourceName": "x.csv"}}`. -/
theorem claim_C7_extract_priority_witness :
    extract_object_name
      (Json.obj [("data", Json.obj [("resourceName", Json.str "x.csv")])]) =
      .ok (Json.str "x.csv") :=
  (claim_C7_extract_priority
    [("data", Json.obj [("resourceName", Json.str "x.csv")])]).1
    [("resourceName", Json.str "x.csv")] (Json.str "x.csv") rfl rfl

/-- Counterexample to C8 as stated: on the event path the required
environment variables are validated only after signer initialisation
(lines 117-141 of `func.py`), which performs external I/O.  With every
variable missing, the handler still performs the `auth` effect before
raising the `ValueError` — the failure trace is not empty — and a
failing authentication masks the configuration error entirely. -/
theorem claim_C8_counterexample :
    (handler true env8).trace = [Effect.auth] ∧
    (handler true env8).result = .ok (.failure
      ("Function execution failed: Missing required environment variables: " ++
        String.intercalate ", " required_env_vars) "ValueError") ∧
    [Effect.auth] ≠ ([] : List Effect) ∧
    handler true { env8 with
        auth := .error ⟨"ConnectionError", "endpoint unreachable"⟩ } =
      ⟨.ok (.failure "Function execution failed: endpoint unreachable"
        "ConnectionError"), some 500, [Effect.auth]⟩ := by
  refine ⟨rfl, rfl, by decide, rfl⟩

/-- C8 (amended): missing or empty required settings are all detected
and reported together, in one error listing every missing name: on the
polling path `load_config` raises before any OCI setup or other
external I/O; on the event path the handler raises before any
object-storage, vault or SMTP I/O — though only after signer
initialisation, which does perform external I/O. -/
theorem claim_C8_fail_fast_listing_all
    (config : String → Option String) (stored : Option Ledger)
    (oci_setup : Except PyErr Unit) (env : HandlerEnv)
    (body object_name : Json)
    (hcfg : required_config_keys.filter
      (fun k => !(pyTruthy (config k))) ≠ [])
    (hpb : parse_body env.payload = .ok body)
    (hex : extract_object_name body = .ok object_name)
    (hauth : env.auth = .ok ())
    (henv : required_env_vars.filter
      (fun v => !(pyTruthy (env.envv v))) ≠ []) :
    (report_sender_init config stored oci_setup =
      (.error ⟨"ValueError", "Missing required configuration keys: " ++
        pyReprStrList (required_config_keys.filter
          (fun k => !(pyTruthy (config k))))⟩, []) ∧
     ∀ k, k ∈ required_config_keys.filter (fun k => !(pyTruthy (config k)))
       ↔ (k ∈ required_config_keys ∧ pyTruthy (config k) = false)) ∧
    (handler_try env =
      (.error ⟨"ValueError", "Missing required environment variables: " ++
        String.intercalate ", " (required_env_vars.filter
          (fun v => !(pyTruthy (env.envv v))))⟩, [Effect.auth]) ∧
     ∀ v, v ∈ required_env_vars.filter (fun v => !(pyTruthy (env.envv v)))
       ↔ (v ∈ required_env_vars ∧ pyTruthy (env.envv v) = false)) := by
  have hcfgE : (required_config_keys.filter
      (fun k => !(pyTruthy (config k)))).isEmpty = false := by
    cases h : required_config_keys.filter (fun k => !(pyTruthy (config k)))
    · exact absurd h hcfg
    · rfl
  have henvE : (required_env_vars.filter
      (fun v => !(pyTruthy (env.envv v)))).isEmpty = false := by
    cases h : required_env_vars.filter (fun v => !(pyTruthy (env.envv v)))
    · exact absurd h henv
    · rfl
  refine ⟨⟨?_, ?_⟩, ⟨?_, ?_⟩⟩
  · unfold report_sender_init load_config
    simp only [hcfgE, Bool.false_eq_true, if_false]
  · intro k
    simp [List.mem_filter]
  · simp only [handler_try, hpb, hex, hauth, henvE, Bool.false_eq_true,
      if_false]
  · intro v
    simp [List.mem_filter]

/-- Witness for C8 (amended): an entirely empty configuration mapping
and the empty-environment handler environment. -/
theorem claim_C8_fail_fast_listing_all_witness :
    (report_sender_init (fun _ => none) none (.ok ()) =
      (.error ⟨"ValueError", "Missing required configuration keys: " ++
        pyReprStrList (required_config_keys.filter
          (fun k => !(pyTruthy ((fun _ => (none : Option String)) k))))⟩,
       []) ∧
     ∀ k, k ∈ required_config_keys.filter
        (fun k => !(pyTruthy ((fun _ => (none : Option String)) k)))
       ↔ (k ∈ required_config_keys ∧
         pyTruthy ((fun _ => (none : Option String)) k) = false)) ∧
    (handler_try env8 =
      (.error ⟨"ValueError", "Missing required environment variables: " ++
        String.intercalate ", " (required_env_vars.filter
          (fun v => !(pyTruthy (env8.envv v))))⟩, [Effect.auth]) ∧
     ∀ v, v ∈ required_env_vars.filter (fun v => !(pyTruthy (env8.envv v)))
       ↔ (v ∈ required_env_vars ∧ pyTruthy (env8.envv v) = false)) :=
  claim_C8_fail_fast_listing_all (fun _ => none) none (.ok ()) env8
    (Json.obj []) (Json.str "test-report.csv") (by decide) rfl rfl rfl
    (by decide)

/-- Counterexample to C10 as stated: the trigger payload `b"\xff"` is
not valid JSON — `json.loads` raises `UnicodeDecodeError` on it, which
`except json.JSONDecodeError` does not catch — and the handler fails at
the parsing step with an error response instead of proceeding in
placeholder test mode the way it does for an empty payload. -/
theorem claim_C10_counterexample :
    parse_body envU.payload =
      .error ⟨"UnicodeDecodeError", "invalid utf-8 byte"⟩ ∧
    handler true envU =
      ⟨.ok (.failure "Function execution failed: invalid utf-8 byte"
        "UnicodeDecodeError"), some 500, []⟩ ∧
    handler true { envU with payload := some (.ok (Json.obj [])) } =
      ⟨.ok (.success "Email sent successfully for test-report.csv"
        (Json.str "test-report.csv") "EMAIL_TO-value"), some 200,
       [Effect.auth, Effect.getObject, Effect.getSecret, Effect.getSecret,
        Effect.smtpSend]⟩ :=
  ⟨rfl, rfl, rfl⟩

/-- C10 (amended): for every trigger payload that `json.loads` rejects
with a `JSONDecodeError` — valid UTF-8 text that is not valid JSON —
the handler does not fail at parsing: it treats the body as the empty
object, extracts the placeholder name `test-report.csv`, and the whole
invocation proceeds exactly as for an empty payload. -/
theorem claim_C10_decode_error_placeholder (env : HandlerEnv) (m : String)
    (hp : env.payload = some (.error ⟨"JSONDecodeError", m⟩)) :
    parse_body env.payload = .ok (Json.obj []) ∧
    extract_object_name (Json.obj []) = .ok (Json.str "test-report.csv") ∧
    handler true env =
      handler true { env with payload := some (.ok (Json.obj [])) } := by
  refine ⟨by rw [hp]; rfl, rfl, ?_⟩
  have hcore : handler_try env =
      handler_try { env with payload := some (.ok (Json.obj [])) } := by
    unfold handler_try
    rw [hp]
    rfl
  unfold handler
  rw [hcore]

/-- Witness for C10 (amended) at a concrete decode failure. -/
theorem claim_C10_decode_error_placeholder_witness :
    parse_body envJ.payload = .ok (Json.obj []) ∧
    extract_object_name (Json.obj []) = .ok (Json.str "test-report.csv") ∧
    handler true envJ =
      handler true { envJ with payload := some (.ok (Json.obj [])) } :=
  claim_C10_decode_error_placeholder envJ "Expecting value" rfl

end Oci
